import Mathlib

/-!
Shallow embedding of the DualMaker strategy (src/core/strategy_dual.py) and
the math helpers it uses (src/core/utils.py).

Python floats are modelled as exact rationals (ℚ); exchange-assigned order
ids are modelled as naturals.  Network effects are made explicit: each
embedded operation returns, next to the updated strategy state, the list of
order-mutating network calls it issued (order placement, cancel-all).  Read
calls (snapshots) are inputs of the embedded functions.  Placement outcomes
are supplied by an environment mapping each submitted payload to
`some orderId` (accepted) or `none` (rejected / errored), matching
`_place`, which returns the new id on success and `None` otherwise.
-/

namespace PlentyMM

/-- Round to the nearest integer with ties to even, as the Python builtin
`round` on a number with no digit argument behaves. -/
def rndHalfEven (q : ℚ) : ℤ :=
  let f := Int.floor q
  if q - f < 1/2 then f
  else if (1/2 : ℚ) < q - f then f + 1
  else if f % 2 = 0 then f else f + 1

/-- Embedding of `round_to_step` (src/core/utils.py lines 48-55): snap a
value to the nearest multiple of `step`.  The Python source ends with a
cosmetic `round(val, precision)` where `precision` is the number of decimal
digits of `step`; on exact arithmetic that final rounding is the identity
(a multiple of a step with `d` decimal digits has at most `d` decimal
digits), so it is dropped here. -/
def round_to_step (value step : ℚ) : ℚ :=
  if step ≤ 0 then value
  else rndHalfEven (value / step) * step

/-- Embedding of `floor_to` (src/core/utils.py lines 57-59). -/
def floor_to (value : ℚ) (precision : ℕ) : ℚ :=
  Int.floor (value * 10 ^ precision) / 10 ^ precision

/-- Order side, the `side` field of an order payload. -/
inductive Side
  | Bid
  | Ask
deriving DecidableEq, Repr

/-- The varying fields of the payload `_place` submits via
`rest.execute_order`.  The constant fields of the Python payload (symbol,
orderType = Limit, postOnly = True, the spot auto-borrow flags) are omitted
because they never vary. -/
structure OrderPayload where
  side : Side
  price : ℚ
  qty : ℚ
deriving DecidableEq, Repr

/-- An order-mutating network call issued during a cycle. -/
inductive Call
  | place (p : OrderPayload)
  | cancelAll
deriving DecidableEq, Repr

/-- The response of the exchange to each submitted payload: `some id` when the
response carries an "id" field, `none` on rejection or error. -/
structure Env where
  exec : OrderPayload → Option ℕ

/-- Strategy mode, the `self.mode` string of DualMaker. -/
inductive Mode
  | DUAL
  | UNWIND
deriving DecidableEq, Repr

/-- The `self.stats` dict of DualMaker. -/
structure Stats where
  fill_count : ℕ
  total_volume : ℚ
  total_quote_vol : ℚ
  total_fee : ℚ
deriving DecidableEq, Repr

/-- The mutable fields of DualMaker (src/core/strategy_dual.py lines
12-45).  `__init__` never creates the `avg_cost` attribute (unlike the
sibling TickScalper, strategy.py line 36): it is first created by an
assignment inside `_sync_state`, so it is modelled as `Option ℚ`, with
`none` for the not-yet-assigned attribute; reading it while `none` raises
AttributeError in the source. -/
structure DMState where
  tick_size : ℚ
  min_qty : ℚ
  base_precision : ℕ
  active_buy_id : Option ℕ
  active_sell_id : Option ℕ
  active_buy_qty : ℚ
  active_sell_qty : ℚ
  active_buy_price : ℚ
  active_sell_price : ℚ
  held_qty : ℚ
  equity : ℚ
  real_equity : ℚ
  avg_cost : Option ℚ
  mode : Mode
  last_fill_time : ℚ
  unwind_start_time : ℚ
  initial_real_equity : ℚ
  stats : Stats
  is_perp : Bool
deriving DecidableEq, Repr

/-- The configuration fields of src/config.py consumed by DualMaker. -/
structure Config where
  GRID_ORDER_PCT : ℚ
  MAX_POSITION_PCT : ℚ
  LEVERAGE : ℚ
  BREAKEVEN_TIMEOUT : ℚ
  TAKER_FEE_RATE : ℚ
deriving Repr

/-- Result of `rest.get_open_orders`: `ok ids` when the endpoint returned a
list (modelled by its ids, the only part `_sync_state` reads), `err` when
it returned anything that is not a list — the rest client returns an error
dict on any transport failure or non-200 status, it never raises. -/
inductive OrdersResp
  | ok (ids : List ℕ)
  | err
deriving DecidableEq, Repr

/-- Embedding of `DualMaker._update_stats` (lines 203-209). -/
def update_stats (cfg : Config) (st : DMState) (price qty : ℚ) : DMState :=
  let quote_vol := price * qty
  let fee := quote_vol * cfg.TAKER_FEE_RATE
  { st with stats :=
      { fill_count := st.stats.fill_count + 1
        total_volume := st.stats.total_volume + qty
        total_quote_vol := st.stats.total_quote_vol + quote_vol
        total_fee := st.stats.total_fee + fee } }

/-- Embedding of `DualMaker._place` (lines 249-282): price is snapped to
the tick size, quantity floored to the base precision; if the floored
quantity is below `min_qty` the function returns `None` before any network
call, otherwise it submits the payload and returns the response id (or
`None` when the response has no id / raises). -/
def place (st : DMState) (side : Side) (price qty : ℚ) (env : Env) :
    Option ℕ × List Call :=
  let p := round_to_step price st.tick_size
  let q := floor_to qty st.base_precision
  if q < st.min_qty then (none, [])
  else
    let payload : OrderPayload := ⟨side, p, q⟩
    (env.exec payload, [Call.place payload])

/-- Embedding of `DualMaker.cancel_all` (lines 284-290): issue a cancel-all
and clear both tracked ids (the rest client never raises, so the clearing
is unconditional). -/
def cancel_all (st : DMState) : DMState × List Call :=
  ({ st with active_buy_id := none, active_sell_id := none }, [Call.cancelAll])

/-- Embedding of the order-reconciliation tail of `DualMaker._sync_state`
(lines 155-201).  It runs after the collateral/position part of the sync,
so `st.held_qty`, `st.equity`, `st.real_equity` are already the freshly
fetched values.  A non-list response (`OrdersResp.err`) is replaced with an
empty list by the source (lines 157-158).  `now` is the value of
`time.time()` stored into `last_fill_time`.  The spot buy-fill branch with
positive synced quantity reads `self.avg_cost` (line 175); when that
attribute has never been assigned (`none` here) the read raises
AttributeError before any mutation of the branch, the handler at line 200
swallows it and the rest of the sync — including the sell check — never
runs: the reconciliation then returns the state unchanged, which the
`Option DMState` intermediate value models as `none`. -/
def sync_orders (cfg : Config) (st : DMState) (resp : OrdersResp) (now : ℚ) :
    DMState :=
  let active_ids : List ℕ :=
    match resp with
    | .ok ids => ids
    | .err => []
  let step1 : Option DMState :=
    match st.active_buy_id with
    | some bid =>
        if bid ∈ active_ids then some st
        else
          let fill_qty := st.active_buy_qty
          let fill_price := st.active_buy_price
          let stA :=
            if st.is_perp then some st
            else
              let prev_qty := max 0 (st.held_qty - fill_qty)
              if 0 < st.held_qty then
                match st.avg_cost with
                | some a =>
                    some { st with
                      avg_cost := some (((prev_qty * a) + (fill_qty * fill_price)) / st.held_qty) }
                | none => none
              else
                some { st with avg_cost := some fill_price }
          match stA with
          | none => none
          | some stA =>
              let stB := update_stats cfg stA fill_price fill_qty
              some { stB with active_buy_id := none, last_fill_time := now }
    | none => some st
  match step1 with
  | none => st
  | some st1 =>
      match st1.active_sell_id with
      | some sid =>
          if sid ∈ active_ids then st1
          else
            let stA :=
              if st1.is_perp = false ∧ |st1.held_qty| < st1.min_qty then
                { st1 with avg_cost := some 0 }
              else st1
            let stB := update_stats cfg stA st1.active_sell_price st1.active_sell_qty
            { stB with active_sell_id := none, last_fill_time := now }
      | none => st1

/-- Embedding of the effective-capital guard of `DualMaker.run` (lines
321-322): `equity * LEVERAGE`, replaced by 1 when non-positive, before it
is used as a divisor. -/
def effective_capital (equity leverage : ℚ) : ℚ :=
  if equity * leverage ≤ 0 then 1 else equity * leverage

/-- The exposure quotient computed by `DualMaker.run` (lines 317-324):
position notional at the mid of the top of book, divided by the guarded
effective capital. -/
def risk_exposure (cfg : Config) (st : DMState) (bid1 ask1 : ℚ) : ℚ :=
  let mid_price := (bid1 + ask1) / 2
  |st.held_qty * mid_price| / effective_capital st.equity cfg.LEVERAGE

/-- Embedding of the risk-mode decision of `DualMaker.run` (lines 315-338):
overexposure switches DUAL to UNWIND (cancelling all quotes and recording
the unwind start time); otherwise, a small position switches UNWIND back to
DUAL (also cancelling). -/
def risk_step (cfg : Config) (st : DMState) (bid1 ask1 now : ℚ) :
    DMState × List Call :=
  if cfg.MAX_POSITION_PCT < risk_exposure cfg st bid1 ask1 then
    if st.mode = Mode.DUAL then
      let (st1, cs) := cancel_all st
      ({ st1 with mode := Mode.UNWIND, unwind_start_time := now }, cs)
    else (st, [])
  else if |st.held_qty| < st.min_qty ∧ st.mode = Mode.UNWIND then
    let (st1, cs) := cancel_all st
    ({ st1 with mode := Mode.DUAL }, cs)
  else (st, [])

/-- Embedding of `DualMaker._logic_dual` (lines 350-377). -/
def logic_dual (cfg : Config) (st : DMState) (target_bid target_ask : ℚ)
    (env : Env) : DMState × List Call :=
  let has_buy := st.active_buy_id.isSome
  let has_sell := st.active_sell_id.isSome
  if has_buy && has_sell then (st, [])
  else if has_buy != has_sell then cancel_all st
  else
    let raw_qty := (st.equity * cfg.LEVERAGE * cfg.GRID_ORDER_PCT) / target_ask
    if raw_qty < st.min_qty then (st, [])
    else if target_ask ≤ target_bid then (st, [])
    else
      let rb := place st Side.Bid target_bid raw_qty env
      let rs := place st Side.Ask target_ask raw_qty env
      let st1 :=
        match rb.1 with
        | some b =>
            { st with active_buy_id := some b, active_buy_price := target_bid,
                      active_buy_qty := raw_qty }
        | none => st
      let st2 :=
        match rs.1 with
        | some s =>
            { st1 with active_sell_id := some s, active_sell_price := target_ask,
                       active_sell_qty := raw_qty }
        | none => st1
      (st2, rb.2 ++ rs.2)

/-- The deficit computed at the top of `DualMaker._logic_unwind` (line
387): `max(0, initial_real_equity - real_equity)`, recomputed from the
state each cycle. -/
def unwind_deficit (st : DMState) : ℚ :=
  max 0 (st.initial_real_equity - st.real_equity)

/-- The per-unit markup of `DualMaker._logic_unwind` (lines 397-400):
`deficit / qty_abs` only when `qty_abs` strictly exceeds `min_qty`,
0 otherwise. -/
def markup_per_unit (deficit qty_abs min_qty : ℚ) : ℚ :=
  if min_qty < qty_abs then deficit / qty_abs else 0

/-- The long-side (sell) target price of `DualMaker._logic_unwind` (lines
408-420): mid plus markup, blended linearly toward `best_ask` over a
600-second window once `dur` exceeds the break-even timeout, and clamped
from below by `best_ask`. -/
def unwind_target_long (cfg : Config) (best_ask mid_price markup dur : ℚ) : ℚ :=
  let target_price := mid_price + markup
  let target_price :=
    if cfg.BREAKEVEN_TIMEOUT < dur then
      let decay := min 1 ((dur - cfg.BREAKEVEN_TIMEOUT) / 600)
      target_price * (1 - decay) + best_ask * decay
    else target_price
  max target_price best_ask

/-- The short-side (buy) target price of `DualMaker._logic_unwind` (lines
441-455): mid minus markup (replaced by half the best bid when
non-positive), blended linearly toward `best_bid` over a 600-second window
once `dur` exceeds the break-even timeout, and clamped from above by
`best_bid`. -/
def unwind_target_short (cfg : Config) (best_bid mid_price markup dur : ℚ) : ℚ :=
  let target_price := mid_price - markup
  let target_price := if target_price ≤ 0 then best_bid * (1/2) else target_price
  let target_price :=
    if cfg.BREAKEVEN_TIMEOUT < dur then
      let decay := min 1 ((dur - cfg.BREAKEVEN_TIMEOUT) / 600)
      target_price * (1 - decay) + best_bid * decay
    else target_price
  min target_price best_bid

/-- Embedding of `DualMaker._logic_unwind` (lines 379-468).  `now` is the
value of `time.time()` used for the elapsed-time check. -/
def logic_unwind (cfg : Config) (st : DMState) (best_bid best_ask now : ℚ)
    (env : Env) : DMState × List Call :=
  let deficit := unwind_deficit st
  let dur := now - st.unwind_start_time
  let mid_price := (best_bid + best_ask) / 2
  let qty_abs := |st.held_qty|
  let markup := markup_per_unit deficit qty_abs st.min_qty
  if st.min_qty ≤ st.held_qty then
    let r0 := if st.active_buy_id.isSome then cancel_all st else (st, [])
    let st1 := r0.1
    let final_ask := unwind_target_long cfg best_ask mid_price markup dur
    if st1.active_sell_id.isSome ∧
        st1.tick_size < |st1.active_sell_price - final_ask| then
      let r1 := cancel_all st1
      (r1.1, r0.2 ++ r1.2)
    else if st1.active_sell_id.isSome then (st1, r0.2)
    else
      let r1 := place st1 Side.Ask final_ask qty_abs env
      match r1.1 with
      | some s =>
          ({ st1 with active_sell_id := some s, active_sell_price := final_ask,
                      active_sell_qty := qty_abs }, r0.2 ++ r1.2)
      | none => ({ st1 with active_sell_id := none }, r0.2 ++ r1.2)
  else if st.held_qty ≤ -st.min_qty then
    let r0 := if st.active_sell_id.isSome then cancel_all st else (st, [])
    let st1 := r0.1
    let final_bid := unwind_target_short cfg best_bid mid_price markup dur
    if st1.active_buy_id.isSome ∧
        st1.tick_size < |st1.active_buy_price - final_bid| then
      let r1 := cancel_all st1
      (r1.1, r0.2 ++ r1.2)
    else if st1.active_buy_id.isSome then (st1, r0.2)
    else
      let r1 := place st1 Side.Bid final_bid qty_abs env
      match r1.1 with
      | some b =>
          ({ st1 with active_buy_id := some b, active_buy_price := final_bid,
                      active_buy_qty := qty_abs }, r0.2 ++ r1.2)
      | none => ({ st1 with active_buy_id := none }, r0.2 ++ r1.2)
  else (st, [])

/-- The exposure ratio as the spec words it (its §4.3 and claim C3):
`|quantity * markPrice| / (tradingEquity * leverage)` with markPrice the
average cost when one is known (position at least `min_qty` in absolute
value) and otherwise the mid of the top of book; a never-assigned average
cost counts as 0, matching the reset-to-zero convention of the spec data
model.  Kept separate from `risk_exposure` (the computation of the source)
to compare the two. -/
def risk_exposure_spec (cfg : Config) (st : DMState) (bid1 ask1 : ℚ) : ℚ :=
  let mark :=
    if st.min_qty ≤ |st.held_qty| then st.avg_cost.getD 0 else (bid1 + ask1) / 2
  |st.held_qty * mark| / (st.equity * cfg.LEVERAGE)

/-- The deficit as the spec words it (its §4.5 and claim C4):
`max(0, equityAtUnwindStart - currentSettlementEquity)`, where the first
argument is the settlement equity recorded when the UNWIND episode
started.  Kept separate from `unwind_deficit` (the computation of the source)
to compare the two. -/
def deficit_spec (equityAtUnwindStart currentSettlementEquity : ℚ) : ℚ :=
  max 0 (equityAtUnwindStart - currentSettlementEquity)

/-- A neutral base state with the default market constants of the source
(tick 0.01, min qty 0.1, precision 2), used by concrete evaluations; as in
a freshly constructed spot DualMaker, the `avg_cost` attribute has never
been assigned. -/
def st0 : DMState where
  tick_size := 1/100
  min_qty := 1/10
  base_precision := 2
  active_buy_id := none
  active_sell_id := none
  active_buy_qty := 0
  active_sell_qty := 0
  active_buy_price := 0
  active_sell_price := 0
  held_qty := 0
  equity := 0
  real_equity := 0
  avg_cost := none
  mode := Mode.DUAL
  last_fill_time := 0
  unwind_start_time := 0
  initial_real_equity := 0
  stats := ⟨0, 0, 0, 0⟩
  is_perp := false

/-- The default configuration values of src/config.py. -/
def cfg0 : Config where
  GRID_ORDER_PCT := 1/20
  MAX_POSITION_PCT := 9/20
  LEVERAGE := 1
  BREAKEVEN_TIMEOUT := 1200
  TAKER_FEE_RATE := 18/100000

/-- An exchange that accepts buy placements (id 7) and rejects sells. -/
def envBuyOnly : Env :=
  ⟨fun p => match p.side with | Side.Bid => some 7 | Side.Ask => none⟩

/-- An exchange that accepts every placement, with ids by side. -/
def envAccept : Env :=
  ⟨fun p => match p.side with | Side.Bid => some 11 | Side.Ask => some 12⟩

/-- An exchange that rejects every placement. -/
def envReject : Env := ⟨fun _ => none⟩

/-! Helper lemmas about the time-decay blend of `_logic_unwind`. -/

/-- The decay fraction applied by `_logic_unwind` once past the break-even
timeout: 0 before timeout, otherwise the elapsed excess over a 600-second
window, clamped to 1. -/
def decay_frac (cfg : Config) (dur : ℚ) : ℚ :=
  if cfg.BREAKEVEN_TIMEOUT < dur then min 1 ((dur - cfg.BREAKEVEN_TIMEOUT) / 600) else 0

lemma decay_frac_nonneg (cfg : Config) (dur : ℚ) : 0 ≤ decay_frac cfg dur := by
  unfold decay_frac
  split
  · rename_i h
    refine le_min (by norm_num) ?_
    have hsub : (0 : ℚ) ≤ dur - cfg.BREAKEVEN_TIMEOUT := sub_nonneg.mpr h.le
    positivity
  · exact le_refl 0

lemma decay_frac_le_one (cfg : Config) (dur : ℚ) : decay_frac cfg dur ≤ 1 := by
  unfold decay_frac
  split
  · exact min_le_left _ _
  · norm_num

lemma decay_frac_mono (cfg : Config) {dur1 dur2 : ℚ} (h : dur1 ≤ dur2) :
    decay_frac cfg dur1 ≤ decay_frac cfg dur2 := by
  unfold decay_frac
  split
  · rename_i h1
    rw [if_pos (lt_of_lt_of_le h1 h)]
    exact min_le_min le_rfl (by gcongr)
  · rename_i h1
    split
    · rename_i h2
      refine le_min (by norm_num) ?_
      have hsub : (0 : ℚ) ≤ dur2 - cfg.BREAKEVEN_TIMEOUT := sub_nonneg.mpr h2.le
      positivity
    · exact le_refl 0

lemma decay_frac_eq_one (cfg : Config) {dur : ℚ} (h : cfg.BREAKEVEN_TIMEOUT + 600 ≤ dur) :
    decay_frac cfg dur = 1 := by
  unfold decay_frac
  rw [if_pos (by linarith)]
  have : (1 : ℚ) ≤ (dur - cfg.BREAKEVEN_TIMEOUT) / 600 := by
    rw [le_div_iff₀ (by norm_num)]
    linarith
  exact min_eq_left this

lemma max_eq_add_max_sub (a x : ℚ) : max x a = a + max (x - a) 0 := by
  rcases le_total x a with h | h
  · rw [max_eq_right h, max_eq_right (sub_nonpos.mpr h), add_zero]
  · rw [max_eq_left h, max_eq_left (sub_nonneg.mpr h)]
    ring

lemma min_eq_sub_max_sub (a x : ℚ) : min x a = a - max (a - x) 0 := by
  rcases le_total x a with h | h
  · rw [min_eq_left h, max_eq_left (sub_nonneg.mpr h)]
    ring
  · rw [min_eq_right h, max_eq_right (sub_nonpos.mpr h), sub_zero]

/-- Closed form of the long-side unwind target: the best ask plus the
non-negative part of the pre-decay premium, scaled by the remaining
fraction of the decay window. -/
lemma unwind_target_long_eq (cfg : Config) (best_ask mid_price markup dur : ℚ) :
    unwind_target_long cfg best_ask mid_price markup dur =
      best_ask + max (mid_price + markup - best_ask) 0 * (1 - decay_frac cfg dur) := by
  by_cases h : cfg.BREAKEVEN_TIMEOUT < dur
  · have h1 : (0 : ℚ) ≤ 1 - decay_frac cfg dur :=
      sub_nonneg.mpr (decay_frac_le_one cfg dur)
    simp only [unwind_target_long, decay_frac, if_pos h] at h1 ⊢
    rw [max_eq_add_max_sub, max_mul_of_nonneg _ _ h1, zero_mul]
    congr 2
    ring
  · simp only [unwind_target_long, decay_frac, if_neg h]
    rw [max_eq_add_max_sub]
    ring

/-- Closed form of the short-side unwind target: the best bid minus the
non-negative part of the pre-decay discount, scaled by the remaining
fraction of the decay window.  The base price is the positive-price guard
of the source. -/
lemma unwind_target_short_eq (cfg : Config) (best_bid mid_price markup dur : ℚ) :
    unwind_target_short cfg best_bid mid_price markup dur =
      best_bid -
        max (best_bid -
          (if mid_price - markup ≤ 0 then best_bid * (1/2) else mid_price - markup)) 0 *
          (1 - decay_frac cfg dur) := by
  by_cases h : cfg.BREAKEVEN_TIMEOUT < dur
  · have h1 : (0 : ℚ) ≤ 1 - decay_frac cfg dur :=
      sub_nonneg.mpr (decay_frac_le_one cfg dur)
    simp only [unwind_target_short, decay_frac, if_pos h] at h1 ⊢
    rw [min_eq_sub_max_sub, max_mul_of_nonneg _ _ h1, zero_mul]
    congr 2
    ring
  · simp only [unwind_target_short, decay_frac, if_neg h]
    rw [min_eq_sub_max_sub]
    ring

/-- C7: for a fixed book, mid, deficit-markup and quantity, the unwind
target price is monotone toward the best-quote price (best ask for a long,
best bid for a short) as the elapsed time grows, equals that best-quote
price from the end of the 600-second decay window on regardless of markup,
and before the break-even timeout the long target is the mid plus the
markup clamped to at least the best ask. -/
theorem C7_unwind_decay_monotone (cfg : Config) (best_bid best_ask mid_price markup : ℚ)
    (dur1 dur2 : ℚ) (h12 : dur1 ≤ dur2) :
    (dur1 ≤ cfg.BREAKEVEN_TIMEOUT →
      unwind_target_long cfg best_ask mid_price markup dur1 =
        max (mid_price + markup) best_ask) ∧
    (cfg.BREAKEVEN_TIMEOUT + 600 ≤ dur1 →
      unwind_target_long cfg best_ask mid_price markup dur1 = best_ask ∧
      unwind_target_short cfg best_bid mid_price markup dur1 = best_bid) ∧
    |unwind_target_long cfg best_ask mid_price markup dur2 - best_ask| ≤
      |unwind_target_long cfg best_ask mid_price markup dur1 - best_ask| ∧
    |unwind_target_short cfg best_bid mid_price markup dur2 - best_bid| ≤
      |unwind_target_short cfg best_bid mid_price markup dur1 - best_bid| := by
  have hmono := decay_frac_mono cfg h12
  have h1a := decay_frac_le_one cfg dur1
  have h2a := decay_frac_le_one cfg dur2
  refine ⟨?_, ?_, ?_, ?_⟩
  · intro hpre
    rw [unwind_target_long_eq]
    have hz : decay_frac cfg dur1 = 0 := by
      unfold decay_frac
      rw [if_neg (not_lt.mpr hpre)]
    rw [hz, max_eq_add_max_sub (a := best_ask) (x := mid_price + markup)]
    ring
  · intro hend
    have hone : decay_frac cfg dur1 = 1 := decay_frac_eq_one cfg hend
    constructor
    · rw [unwind_target_long_eq, hone]
      ring
    · rw [unwind_target_short_eq, hone]
      ring
  · rw [unwind_target_long_eq, unwind_target_long_eq]
    have hmax : (0 : ℚ) ≤ max (mid_price + markup - best_ask) 0 := le_max_right _ _
    rw [add_sub_cancel_left, add_sub_cancel_left,
      abs_of_nonneg (mul_nonneg hmax (by linarith)),
      abs_of_nonneg (mul_nonneg hmax (by linarith))]
    have : 1 - decay_frac cfg dur2 ≤ 1 - decay_frac cfg dur1 := by linarith
    exact mul_le_mul_of_nonneg_left this hmax
  · rw [unwind_target_short_eq, unwind_target_short_eq]
    have hmax : (0 : ℚ) ≤
        max (best_bid -
          (if mid_price - markup ≤ 0 then best_bid * (1/2) else mid_price - markup)) 0 :=
      le_max_right _ _
    rw [sub_sub_cancel_left, sub_sub_cancel_left, abs_neg, abs_neg,
      abs_of_nonneg (mul_nonneg hmax (by linarith)),
      abs_of_nonneg (mul_nonneg hmax (by linarith))]
    have : 1 - decay_frac cfg dur2 ≤ 1 - decay_frac cfg dur1 := by linarith
    exact mul_le_mul_of_nonneg_left this hmax

/-- C7 witness: with the default 1200-second timeout, at 1800 and 2400
seconds the decay window has ended, so both unwind targets sit exactly at
the best quote; the instance is the theorem applied at markup 2 (deficit
10 over quantity 5), best bid 99, best ask 101, mid 100. -/
theorem C7_unwind_decay_monotone_witness :
    ((1800 : ℚ) ≤ cfg0.BREAKEVEN_TIMEOUT →
      unwind_target_long cfg0 101 100 2 1800 = max (100 + 2) 101) ∧
    (cfg0.BREAKEVEN_TIMEOUT + 600 ≤ 1800 →
      unwind_target_long cfg0 101 100 2 1800 = 101 ∧
      unwind_target_short cfg0 99 100 2 1800 = 99) ∧
    |unwind_target_long cfg0 101 100 2 2400 - 101| ≤
      |unwind_target_long cfg0 101 100 2 1800 - 101| ∧
    |unwind_target_short cfg0 99 100 2 2400 - 99| ≤
      |unwind_target_short cfg0 99 100 2 1800 - 99| :=
  C7_unwind_decay_monotone cfg0 99 101 100 2 1800 2400 (by norm_num)

/-- C8: in the PAIRED state (both a buy and a sell tracked as resting) the
DUAL quoting logic is a no-op: it issues no network call and leaves the
state unchanged. -/
theorem C8_paired_idempotent (cfg : Config) (st : DMState) (target_bid target_ask : ℚ)
    (env : Env) (b s : ℕ)
    (hb : st.active_buy_id = some b) (hs : st.active_sell_id = some s) :
    logic_dual cfg st target_bid target_ask env = (st, []) := by
  unfold logic_dual
  rw [hb, hs]
  simp

/-- C8 witness: the theorem applied to a concrete paired state. -/
theorem C8_paired_idempotent_witness :
    logic_dual cfg0
      { st0 with active_buy_id := some 21, active_sell_id := some 22 }
      99 100 envAccept =
      ({ st0 with active_buy_id := some 21, active_sell_id := some 22 }, []) :=
  C8_paired_idempotent cfg0 _ 99 100 envAccept 21 22 rfl rfl

/-- C9: no division in the cycle divides by zero: the guarded effective
capital is strictly positive (non-positive equity-times-leverage is
replaced by 1 before dividing), and the unwind markup divides by the
absolute quantity only when it strictly exceeds the (positive) minimum
quantity, being 0 otherwise. -/
theorem C9_no_division_by_zero (equity leverage deficit qty_abs min_qty : ℚ)
    (hminq : 0 < min_qty) :
    0 < effective_capital equity leverage ∧
    (markup_per_unit deficit qty_abs min_qty = 0 ∨
      (qty_abs ≠ 0 ∧ markup_per_unit deficit qty_abs min_qty = deficit / qty_abs)) := by
  constructor
  · unfold effective_capital
    split
    · norm_num
    · rename_i hle
      exact not_le.mp hle
  · unfold markup_per_unit
    split
    · rename_i hlt
      exact Or.inr ⟨ne_of_gt (hminq.trans hlt), rfl⟩
    · exact Or.inl rfl

/-- C9 witness: the theorem applied at zero equity (guard replaces the
capital with 1) and a quantity above the minimum. -/
theorem C9_no_division_by_zero_witness :
    0 < effective_capital 0 1 ∧
    (markup_per_unit 10 5 (1/10) = 0 ∨
      ((5 : ℚ) ≠ 0 ∧ markup_per_unit 10 5 (1/10) = 10 / 5)) :=
  C9_no_division_by_zero 0 1 10 5 (1/10) (by norm_num)

/-- C10: every payload `_place` submits carries the price snapped to the
tick size and the quantity floored to the base precision and at least the
minimum quantity; if the floored quantity is below the minimum, `_place`
returns `None` and issues no network call at all. -/
theorem C10_place_rounds_and_guards (st : DMState) (side : Side) (price qty : ℚ)
    (env : Env) :
    (floor_to qty st.base_precision < st.min_qty →
      place st side price qty env = (none, [])) ∧
    ∀ p, Call.place p ∈ (place st side price qty env).2 →
      p.price = round_to_step price st.tick_size ∧
      p.qty = floor_to qty st.base_precision ∧
      st.min_qty ≤ p.qty := by
  by_cases h : floor_to qty st.base_precision < st.min_qty
  · constructor
    · intro _
      simp [place, if_pos h]
    · intro p hp
      simp [place, if_pos h] at hp
  · constructor
    · intro hlt
      exact absurd hlt h
    · intro p hp
      simp only [place, if_neg h, List.mem_singleton, Call.place.injEq] at hp
      subst hp
      exact ⟨rfl, rfl, not_lt.mp h⟩

/-- C10 witness: the theorem applied at a quantity whose floored value
0.09 is below the minimum 0.1 — the first conjunct then yields no call —
and, vacuously instantiable, the payload facts. -/
theorem C10_place_rounds_and_guards_witness :
    (floor_to (9/100 + 1/1000) st0.base_precision < st0.min_qty →
      place st0 Side.Bid 99 (9/100 + 1/1000) envAccept = (none, [])) ∧
    ∀ p, Call.place p ∈ (place st0 Side.Bid 99 (9/100 + 1/1000) envAccept).2 →
      p.price = round_to_step 99 st0.tick_size ∧
      p.qty = floor_to (9/100 + 1/1000) st0.base_precision ∧
      st0.min_qty ≤ p.qty :=
  C10_place_rounds_and_guards st0 Side.Bid 99 (9/100 + 1/1000) envAccept

/-- The first fill of the claimed from-flat scenario of C5: a freshly
constructed spot DualMaker (so the `avg_cost` attribute was never
assigned) whose tracked buy order 1 @ 100 has disappeared from the
snapshot, with the synced post-fill quantity 1. -/
def c5fresh : DMState :=
  { st0 with active_buy_id := some 3, active_buy_qty := 1, active_buy_price := 100,
             held_qty := 1 }

/-- C5: the claim fails on the code at its own from-flat scenario.  On the
first spot buy fill from flat with positive synced quantity, line 175
reads the never-assigned `self.avg_cost` and raises AttributeError, which
the handler at line 200 swallows: the reconciliation aborts with no
mutation — no average cost is recorded (it stays absent, not the fill
price 100), the buy id stays tracked and the fill statistics stay zero —
and every later cycle repeats the same failure, so the claimed
buy-1@100-then-1@110 outcome of quantity 2 at average cost 105 is never
reached.  The theorem evaluates the embedding at this failing input: the
sync returns its input state unchanged. -/
theorem C5_first_spot_fill_raises :
    sync_orders cfg0 c5fresh (OrdersResp.ok []) 10 = c5fresh ∧
    c5fresh.avg_cost = none ∧
    c5fresh.active_buy_id = some 3 ∧
    c5fresh.is_perp = false ∧
    0 < c5fresh.held_qty := by
  refine ⟨?_, rfl, rfl, rfl, by norm_num [c5fresh, st0]⟩
  norm_num [sync_orders, update_stats, c5fresh, st0, cfg0]

/-- C1: the claim that a failed (non-list) open-orders snapshot leaves all
order-tracking and cost state untouched is contradicted by the code: the
source replaces a non-list result with an empty list, so a tracked buy
order is inferred as filled — its id is dropped, the average cost moves
from 100 to 110 and the fill counter increments — instead of being kept
tracked with inference deferred. -/
theorem C1_err_snapshot_infers_fills :
    (sync_orders cfg0
        { st0 with active_buy_id := some 1, active_buy_qty := 1, active_buy_price := 110,
                   held_qty := 1, avg_cost := some 100 }
        OrdersResp.err 500).active_buy_id = none ∧
    (sync_orders cfg0
        { st0 with active_buy_id := some 1, active_buy_qty := 1, active_buy_price := 110,
                   held_qty := 1, avg_cost := some 100 }
        OrdersResp.err 500).avg_cost = some 110 ∧
    (sync_orders cfg0
        { st0 with active_buy_id := some 1, active_buy_qty := 1, active_buy_price := 110,
                   held_qty := 1, avg_cost := some 100 }
        OrdersResp.err 500).stats.fill_count = 1 := by
  norm_num [sync_orders, update_stats, st0, cfg0]

/-- A state with a known average cost (quantity 1 at least the minimum
0.1, average cost 40) for comparing the exposure quotient of the code with
the wording of the spec. -/
def c3st : DMState := { st0 with held_qty := 1, avg_cost := some 40, equity := 100 }

/-- C3 counterexample: with quantity 1, average cost 40 (known: quantity
at least `min_qty`), equity 100, leverage 1, bid 99 and ask 101, the code
computes exposure quotient 1 (it uses the mid 100, not the average cost),
while the formula of the spec evaluates to 2/5; the two even disagree on
the risk decision, since only the value the code computes exceeds
`MAX_POSITION_PCT` 0.45. -/
theorem C3_counterexample :
    c3st.min_qty ≤ |c3st.held_qty| ∧
    risk_exposure cfg0 c3st 99 101 = 1 ∧
    risk_exposure_spec cfg0 c3st 99 101 = 2/5 ∧
    risk_exposure cfg0 c3st 99 101 ≠ risk_exposure_spec cfg0 c3st 99 101 ∧
    cfg0.MAX_POSITION_PCT < risk_exposure cfg0 c3st 99 101 ∧
    ¬ cfg0.MAX_POSITION_PCT < risk_exposure_spec cfg0 c3st 99 101 := by
  norm_num [risk_exposure, risk_exposure_spec, effective_capital, c3st, st0, cfg0]

/-- C3 amended: the exposure quotient the risk decision uses is
`|quantity * mid| / (tradingEquity * leverage)`, with the mid of the top
of book as the only mark price (the average cost is never consulted) and
with the denominator replaced by 1 when non-positive; from DUAL mode the
cycle switches to UNWIND exactly when this quotient exceeds
`MAX_POSITION_PCT`. -/
theorem C3_amended_exposure_uses_mid (cfg : Config) (st : DMState) (bid1 ask1 now : ℚ)
    (hmode : st.mode = Mode.DUAL) :
    risk_exposure cfg st bid1 ask1 =
      |st.held_qty * ((bid1 + ask1) / 2)| / effective_capital st.equity cfg.LEVERAGE ∧
    ((risk_step cfg st bid1 ask1 now).1.mode = Mode.UNWIND ↔
      cfg.MAX_POSITION_PCT < risk_exposure cfg st bid1 ask1) := by
  refine ⟨rfl, ?_⟩
  unfold risk_step
  by_cases hgt : cfg.MAX_POSITION_PCT < risk_exposure cfg st bid1 ask1
  · simp [if_pos hgt, hmode, cancel_all, hgt]
  · simp only [if_neg hgt]
    simp [hmode, hgt, cancel_all]

/-- C3 amended witness: the theorem applied at the counterexample state
(DUAL mode), where the quotient is 1 and the transition fires. -/
theorem C3_amended_exposure_uses_mid_witness :
    risk_exposure cfg0 c3st 99 101 =
      |c3st.held_qty * ((99 + 101) / 2)| / effective_capital c3st.equity cfg0.LEVERAGE ∧
    ((risk_step cfg0 c3st 99 101 7).1.mode = Mode.UNWIND ↔
      cfg0.MAX_POSITION_PCT < risk_exposure cfg0 c3st 99 101) :=
  C3_amended_exposure_uses_mid cfg0 c3st 99 101 7 rfl

/-- A small UNWIND-mode position whose notional still exceeds the exposure
cap because the non-positive equity makes the guarded capital 1. -/
def c6st : DMState := { st0 with mode := Mode.UNWIND, held_qty := 1/20, equity := 0 }

/-- C6 counterexample: in UNWIND mode with |quantity| = 0.05 below
`min_qty` = 0.1, but with exposure quotient 50 above `MAX_POSITION_PCT`
(equity 0, so the guarded capital is 1 and the mid is 1000), the code does
not switch back to DUAL — the overexposure branch takes the `elif` first —
contradicting the claim that UNWIND switches to DUAL exactly when
|quantity| drops below `min_qty`. -/
theorem C6_counterexample :
    |c6st.held_qty| < c6st.min_qty ∧
    c6st.mode = Mode.UNWIND ∧
    cfg0.MAX_POSITION_PCT < risk_exposure cfg0 c6st 999 1001 ∧
    (risk_step cfg0 c6st 999 1001 5).1.mode = Mode.UNWIND := by
  simp [c6st, risk_step, risk_exposure, effective_capital, cancel_all, st0, cfg0]
  norm_num [abs_lt]

/-- C6 amended: per cycle the mode changes at most once; from DUAL it
switches to UNWIND exactly when the exposure quotient exceeds
`MAX_POSITION_PCT` (also cancelling all quotes and recording the unwind
start time), and from UNWIND it switches to DUAL exactly when |quantity|
is below `min_qty` AND the exposure quotient does not exceed
`MAX_POSITION_PCT` — the overexposure check takes precedence. -/
theorem C6_amended_transitions (cfg : Config) (st : DMState) (bid1 ask1 now : ℚ) :
    (st.mode = Mode.DUAL →
      ((risk_step cfg st bid1 ask1 now).1.mode = Mode.UNWIND ↔
        cfg.MAX_POSITION_PCT < risk_exposure cfg st bid1 ask1) ∧
      (cfg.MAX_POSITION_PCT < risk_exposure cfg st bid1 ask1 →
        (risk_step cfg st bid1 ask1 now).1.unwind_start_time = now ∧
        (risk_step cfg st bid1 ask1 now).1.active_buy_id = none ∧
        (risk_step cfg st bid1 ask1 now).1.active_sell_id = none ∧
        (risk_step cfg st bid1 ask1 now).2 = [Call.cancelAll])) ∧
    (st.mode = Mode.UNWIND →
      ((risk_step cfg st bid1 ask1 now).1.mode = Mode.DUAL ↔
        (|st.held_qty| < st.min_qty ∧
          ¬ cfg.MAX_POSITION_PCT < risk_exposure cfg st bid1 ask1))) := by
  unfold risk_step
  by_cases hgt : cfg.MAX_POSITION_PCT < risk_exposure cfg st bid1 ask1
  · constructor
    · intro hmode
      simp [if_pos hgt, cancel_all, hgt, hmode]
    · intro hmode
      simp [if_pos hgt, cancel_all, hgt, hmode]
  · constructor
    · intro hmode
      simp [if_neg hgt, cancel_all, hgt, hmode]
    · intro hmode
      by_cases hsm : |st.held_qty| < st.min_qty
      · simp [if_neg hgt, cancel_all, hgt, hsm, hmode]
      · simp [if_neg hgt, cancel_all, hgt, hsm, hmode]

/-- C6 amended witness: the theorem applied at the counterexample state;
in particular the UNWIND-side equivalence holds there. -/
theorem C6_amended_transitions_witness :
    (c6st.mode = Mode.DUAL →
      ((risk_step cfg0 c6st 999 1001 5).1.mode = Mode.UNWIND ↔
        cfg0.MAX_POSITION_PCT < risk_exposure cfg0 c6st 999 1001) ∧
      (cfg0.MAX_POSITION_PCT < risk_exposure cfg0 c6st 999 1001 →
        (risk_step cfg0 c6st 999 1001 5).1.unwind_start_time = 5 ∧
        (risk_step cfg0 c6st 999 1001 5).1.active_buy_id = none ∧
        (risk_step cfg0 c6st 999 1001 5).1.active_sell_id = none ∧
        (risk_step cfg0 c6st 999 1001 5).2 = [Call.cancelAll])) ∧
    (c6st.mode = Mode.UNWIND →
      ((risk_step cfg0 c6st 999 1001 5).1.mode = Mode.DUAL ↔
        (|c6st.held_qty| < c6st.min_qty ∧
          ¬ cfg0.MAX_POSITION_PCT < risk_exposure cfg0 c6st 999 1001))) :=
  C6_amended_transitions cfg0 c6st 999 1001 5

/-- A DUAL-mode state about to trip the exposure cap, holding settlement
equity 900 while the equity recorded at startup was 1000. -/
def c4stA : DMState :=
  { st0 with held_qty := 5, equity := 10, real_equity := 900, initial_real_equity := 1000 }

/-- The state right after the DUAL-to-UNWIND transition at time 777: the
settlement equity at unwind start is its `real_equity`, 900. -/
def c4stB : DMState := (risk_step cfg0 c4stA 99 101 777).1

/-- C4 counterexample: the UNWIND episode starts at settlement equity 900
(`c4stB.real_equity`); on a later cycle with settlement equity 950 the
code computes deficit `max(0, 1000 - 950) = 50` from the equity recorded
at startup, while the formula of the claim
`max(0, equityAtUnwindStart - current) = max(0, 900 - 950)` gives 0. -/
theorem C4_counterexample :
    c4stB.mode = Mode.UNWIND ∧ c4stB.unwind_start_time = 777 ∧
    c4stB.real_equity = 900 ∧ c4stB.initial_real_equity = 1000 ∧
    unwind_deficit { c4stB with real_equity := 950 } = 50 ∧
    deficit_spec c4stB.real_equity 950 = 0 ∧
    unwind_deficit { c4stB with real_equity := 950 } ≠
      deficit_spec c4stB.real_equity 950 := by
  simp [c4stB, c4stA, risk_step, risk_exposure, effective_capital, cancel_all,
    unwind_deficit, deficit_spec, st0, cfg0]
  norm_num

/-- C4 amended: the deficit the unwind quote tries to recover is
`max(0, initialSettlementEquity - currentSettlementEquity)`, where
`initialSettlementEquity` is the settlement equity recorded once at
startup (`initial_real_equity`), not at the start of the UNWIND episode;
it is recomputed each cycle from the state, and with |quantity| strictly
above `min_qty` the markup per unit is this deficit divided by |quantity|
and prices the unwind quote. -/
theorem C4_amended_deficit_from_startup_equity (cfg : Config) (st : DMState)
    (best_bid best_ask now : ℚ) (env : Env)
    (hlong : st.min_qty ≤ st.held_qty)
    (hb : st.active_buy_id = none) (hs : st.active_sell_id = none)
    (hq : st.min_qty < |st.held_qty|) :
    unwind_deficit st = max 0 (st.initial_real_equity - st.real_equity) ∧
    markup_per_unit (unwind_deficit st) |st.held_qty| st.min_qty =
      max 0 (st.initial_real_equity - st.real_equity) / |st.held_qty| ∧
    (logic_unwind cfg st best_bid best_ask now env).2 =
      (place st Side.Ask
        (unwind_target_long cfg best_ask ((best_bid + best_ask) / 2)
          (max 0 (st.initial_real_equity - st.real_equity) / |st.held_qty|)
          (now - st.unwind_start_time))
        |st.held_qty| env).2 := by
  have hmk : markup_per_unit (unwind_deficit st) |st.held_qty| st.min_qty =
      max 0 (st.initial_real_equity - st.real_equity) / |st.held_qty| := by
    unfold markup_per_unit unwind_deficit
    rw [if_pos hq]
  refine ⟨rfl, hmk, ?_⟩
  unfold logic_unwind
  rw [if_pos hlong]
  simp only [hb, hs, Option.isSome_none, Bool.false_eq_true, false_and, if_false]
  rw [hmk]
  cases hres : (place st Side.Ask
      (unwind_target_long cfg best_ask ((best_bid + best_ask) / 2)
        (max 0 (st.initial_real_equity - st.real_equity) / |st.held_qty|)
        (now - st.unwind_start_time))
      |st.held_qty| env).1 with
  | none => simp [hres]
  | some s => simp [hres]

/-- C4 amended witness: the theorem applied at a concrete long
over-position (quantity 5, startup equity 1000, current 950): the deficit
is 50 and the markup per unit 10. -/
theorem C4_amended_deficit_from_startup_equity_witness :
    unwind_deficit { c4stB with real_equity := 950 } =
      max 0 ((c4stB : DMState).initial_real_equity - 950) ∧
    markup_per_unit (unwind_deficit { c4stB with real_equity := 950 })
        |({ c4stB with real_equity := 950 } : DMState).held_qty|
        ({ c4stB with real_equity := 950 } : DMState).min_qty =
      max 0 ((c4stB : DMState).initial_real_equity - 950) /
        |({ c4stB with real_equity := 950 } : DMState).held_qty| ∧
    (logic_unwind cfg0 { c4stB with real_equity := 950 } 99 101 900 envAccept).2 =
      (place { c4stB with real_equity := 950 } Side.Ask
        (unwind_target_long cfg0 101 ((99 + 101) / 2)
          (max 0 ((c4stB : DMState).initial_real_equity - 950) /
            |({ c4stB with real_equity := 950 } : DMState).held_qty|)
          (900 - ({ c4stB with real_equity := 950 } : DMState).unwind_start_time))
        |({ c4stB with real_equity := 950 } : DMState).held_qty| envAccept).2 := by
  have h := C4_amended_deficit_from_startup_equity cfg0
    { c4stB with real_equity := 950 } 99 101 900 envAccept
    (by norm_num [c4stB, c4stA, risk_step, risk_exposure, effective_capital,
      cancel_all, st0, cfg0])
    (by simp [c4stB, c4stA, risk_step, risk_exposure, effective_capital,
      cancel_all, st0, cfg0]; norm_num)
    (by simp [c4stB, c4stA, risk_step, risk_exposure, effective_capital,
      cancel_all, st0, cfg0]; norm_num)
    (by norm_num [c4stB, c4stA, risk_step, risk_exposure, effective_capital,
      cancel_all, st0, cfg0, abs_of_pos])
  exact h

lemma place_no_cancel (st : DMState) (side : Side) (price qty : ℚ) (env : Env) :
    Call.cancelAll ∉ (place st side price qty env).2 := by
  by_cases h : floor_to qty st.base_precision < st.min_qty
  · simp [place, if_pos h]
  · simp [place, if_neg h]

/-- The LEGGED repair of `_logic_dual`: whenever exactly one side is
tracked, it cancels everything, clears both ids and does nothing else. -/
lemma logic_dual_legged (cfg : Config) (st : DMState) (target_bid target_ask : ℚ)
    (env : Env) (h : st.active_buy_id.isSome ≠ st.active_sell_id.isSome) :
    logic_dual cfg st target_bid target_ask env =
      ({ st with active_buy_id := none, active_sell_id := none }, [Call.cancelAll]) := by
  unfold logic_dual cancel_all
  cases hB : st.active_buy_id <;> cases hS : st.active_sell_id <;>
    simp_all

/-- A flat `_logic_dual` invocation never issues a cancel-all: it either
skips the cycle or only submits placements. -/
lemma logic_dual_flat_no_cancel (cfg : Config) (st : DMState)
    (target_bid target_ask : ℚ) (env : Env)
    (hb : st.active_buy_id = none) (hs : st.active_sell_id = none) :
    Call.cancelAll ∉ (logic_dual cfg st target_bid target_ask env).2 := by
  unfold logic_dual
  simp only [hb, hs, Option.isSome_none, Bool.and_self, Bool.false_eq_true, if_false,
    bne_self_eq_false]
  by_cases h1 : (st.equity * cfg.LEVERAGE * cfg.GRID_ORDER_PCT) / target_ask < st.min_qty
  · simp [if_pos h1]
  · simp only [if_neg h1]
    by_cases h2 : target_ask ≤ target_bid
    · simp [if_pos h2]
    · simp only [if_neg h2, List.mem_append]
      rintro (hmem | hmem)
      · exact place_no_cancel st Side.Bid target_bid _ env hmem
      · exact place_no_cancel st Side.Ask target_ask _ env hmem

/-- A flat DUAL state with enough equity to quote (raw size 0.5 at ask
100). -/
def c2st : DMState := { st0 with equity := 1000 }

/-- C2 counterexample: from the flat state, when the buy placement is
accepted (id 7) and the sell placement is rejected, the cycle ends with
exactly one side tracked and no cancel-all was issued during the cycle —
the engine does not cancel the surviving leg before the cycle ends. -/
theorem C2_counterexample :
    (logic_dual cfg0 c2st 99 100 envBuyOnly).1.active_buy_id = some 7 ∧
    (logic_dual cfg0 c2st 99 100 envBuyOnly).1.active_sell_id = none ∧
    Call.cancelAll ∉ (logic_dual cfg0 c2st 99 100 envBuyOnly).2 := by
  norm_num [logic_dual, place, cfg0, st0, c2st, envBuyOnly, round_to_step, floor_to,
    rndHalfEven, cancel_all]
  exact ⟨(nomatch ·), (nomatch ·)⟩

/-- C2 amended: if a flat DUAL-mode cycle ends with exactly one of the
paired placements tracked (one leg accepted, the other rejected), no
cancel-all is issued in that cycle; the lone surviving leg is instead
cancelled at the start of the next DUAL-mode invocation, which detects the
one-sided state, issues exactly one cancel-all and clears both ids. -/
theorem C2_amended_lone_leg_cancelled_next_cycle (cfg : Config) (st : DMState)
    (target_bid target_ask bid2 ask2 : ℚ) (env env2 : Env)
    (hb : st.active_buy_id = none) (hs : st.active_sell_id = none)
    (hleg : ((logic_dual cfg st target_bid target_ask env).1.active_buy_id.isSome ≠
             ((logic_dual cfg st target_bid target_ask env).1.active_sell_id.isSome : Bool))) :
    Call.cancelAll ∉ (logic_dual cfg st target_bid target_ask env).2 ∧
    logic_dual cfg (logic_dual cfg st target_bid target_ask env).1 bid2 ask2 env2 =
      ({ (logic_dual cfg st target_bid target_ask env).1 with
          active_buy_id := none, active_sell_id := none }, [Call.cancelAll]) :=
  ⟨logic_dual_flat_no_cancel cfg st target_bid target_ask env hb hs,
   logic_dual_legged cfg _ bid2 ask2 env2 hleg⟩

/-- C2 amended witness: the theorem applied to the counterexample run
(buy accepted as id 7, sell rejected): the follow-up invocation cancels
everything. -/
theorem C2_amended_lone_leg_cancelled_next_cycle_witness :
    Call.cancelAll ∉ (logic_dual cfg0 c2st 99 100 envBuyOnly).2 ∧
    logic_dual cfg0 (logic_dual cfg0 c2st 99 100 envBuyOnly).1 99 100 envBuyOnly =
      ({ (logic_dual cfg0 c2st 99 100 envBuyOnly).1 with
          active_buy_id := none, active_sell_id := none }, [Call.cancelAll]) :=
  C2_amended_lone_leg_cancelled_next_cycle cfg0 c2st 99 100 99 100 envBuyOnly envBuyOnly
    rfl rfl
    (by norm_num [logic_dual, place, cfg0, st0, c2st, envBuyOnly, round_to_step,
      floor_to, rndHalfEven])

end PlentyMM
